import Mathlib

/-!
Verification of the products-management service (Go sources under src/).

The development shallowly embeds the session / authentication / cache
subsystem and the product CRUD layer:

* the Redis cache store is a list of `(key, value, ttl)` entries; all
  writes go through JSON marshalling, so stored payloads are modelled by
  their typed content (`CacheVal`);
* Go `time.Time` instants are modelled as natural-number ticks (seconds);
* Go `float64` prices are modelled as rationals (only comparisons and
  equality of prices matter to the verified code paths);
* `crypto/sha256` is embedded as a full executable SHA-256 so that the
  token-blacklist digests are computed, not stubbed;
* the JWT library (`golang-jwt/jwt/v5`) is modelled by the shape of a
  parsed token (`Jwt`) plus the validation the library performs for the
  `jwt.Parse` call sites in this repository (HMAC-family key function,
  signature check, and the exp/iat/nbf claim validation of v5);
* fallible operations return `Except`/`Option`, and handler responses
  carry their HTTP status codes.
-/

namespace Products

/-! ## SHA-256 (crypto/sha256), executable

`UserService.hashToken` (src/internal/service/user_service.go) computes
`hex.EncodeToString(sha256.Sum256([]byte(token)))`.  The embedding below
implements SHA-256 over byte lists, with 32-bit words as naturals reduced
mod 2^32. -/

/-- Right rotation of a 32-bit word. -/
def rotr32 (n x : Nat) : Nat := ((x >>> n) ||| (x <<< (32 - n))) % 4294967296

/-- Right shift of a 32-bit word. -/
def shr32 (n x : Nat) : Nat := x >>> n

/-- Addition mod 2^32. -/
def add32 (a b : Nat) : Nat := (a + b) % 4294967296

/-- SHA-256 round constants (decimal values of the FIPS 180 table). -/
def sha256K : Array Nat := #[
  1116352408, 1899447441, 3049323471, 3921009573, 961987163, 1508970993, 2453635748, 2870763221,
  3624381080, 310598401, 607225278, 1426881987, 1925078388, 2162078206, 2614888103, 3248222580,
  3835390401, 4022224774, 264347078, 604807628, 770255983, 1249150122, 1555081692, 1996064986,
  2554220882, 2821834349, 2952996808, 3210313671, 3336571891, 3584528711, 113926993, 338241895,
  666307205, 773529912, 1294757372, 1396182291, 1695183700, 1986661051, 2177026350, 2456956037,
  2730485921, 2820302411, 3259730800, 3345764771, 3516065817, 3600352804, 4094571909, 275423344,
  430227734, 506948616, 659060556, 883997877, 958139571, 1322822218, 1537002063, 1747873779,
  1955562222, 2024104815, 2227730452, 2361852424, 2428436474, 2756734187, 3204031479, 3329325298]

/-- SHA-256 initial hash state (decimal values). -/
def sha256H0 : List Nat :=
  [1779033703, 3144134277, 1013904242, 2773480762, 1359893119, 2600822924, 528734635, 1541459225]

/-- Message padding: append `0x80`, zeros, and the 64-bit big-endian bit length. -/
def sha256Pad (msg : List Nat) : List Nat :=
  let len := msg.length
  let bitLen := 8 * len
  let zeros := (55 + 64 - len % 64) % 64
  msg ++ [0x80] ++ List.replicate zeros 0 ++
    [bitLen / 2^56 % 256, bitLen / 2^48 % 256, bitLen / 2^40 % 256, bitLen / 2^32 % 256,
     bitLen / 2^24 % 256, bitLen / 2^16 % 256, bitLen / 2^8 % 256, bitLen % 256]

/-- Group bytes into big-endian 32-bit words. -/
def bytesToWords : List Nat → List Nat
  | a :: b :: c :: d :: rest => (a * 16777216 + b * 65536 + c * 256 + d) :: bytesToWords rest
  | _ => []

/-- Message-schedule extension: take the 16 block words and produce 64 words. -/
def sha256Schedule (block : List Nat) : Array Nat :=
  (List.range 48).foldl
    (fun w _ =>
      let t := w.size
      let s0 := (rotr32 7 (w.getD (t - 15) 0)) ^^^ (rotr32 18 (w.getD (t - 15) 0)) ^^^ (shr32 3 (w.getD (t - 15) 0))
      let s1 := (rotr32 17 (w.getD (t - 2) 0)) ^^^ (rotr32 19 (w.getD (t - 2) 0)) ^^^ (shr32 10 (w.getD (t - 2) 0))
      w.push (add32 (add32 (w.getD (t - 16) 0) s0) (add32 (w.getD (t - 7) 0) s1)))
    (block.take 16).toArray

/-- One SHA-256 compression round over the eight-word working state. -/
def sha256Round (w : Array Nat) (st : Nat × Nat × Nat × Nat × Nat × Nat × Nat × Nat) (i : Nat) :
    Nat × Nat × Nat × Nat × Nat × Nat × Nat × Nat :=
  let (a, b, c, d, e, f, g, h) := st
  let s1 := (rotr32 6 e) ^^^ (rotr32 11 e) ^^^ (rotr32 25 e)
  let ch := (e &&& f) ^^^ ((4294967295 - e) &&& g)
  let t1 := add32 (add32 h s1) (add32 ch (add32 (sha256K.getD i 0) (w.getD i 0)))
  let s0 := (rotr32 2 a) ^^^ (rotr32 13 a) ^^^ (rotr32 22 a)
  let maj := (a &&& b) ^^^ (a &&& c) ^^^ (b &&& c)
  let t2 := add32 s0 maj
  (add32 t1 t2, a, b, c, add32 d t1, e, f, g)

/-- Compress one 16-word block into the running 8-word hash state. -/
def sha256Compress (h : List Nat) (block : List Nat) : List Nat :=
  let w := sha256Schedule block
  let init := (h.getD 0 0, h.getD 1 0, h.getD 2 0, h.getD 3 0,
               h.getD 4 0, h.getD 5 0, h.getD 6 0, h.getD 7 0)
  let (a, b, c, d, e, f, g, hh) := (List.range 64).foldl (sha256Round w) init
  [add32 (h.getD 0 0) a, add32 (h.getD 1 0) b, add32 (h.getD 2 0) c, add32 (h.getD 3 0) d,
   add32 (h.getD 4 0) e, add32 (h.getD 5 0) f, add32 (h.getD 6 0) g, add32 (h.getD 7 0) hh]

/-- Fold the compression function over consecutive 16-word blocks. -/
def sha256Blocks (h : List Nat) : List Nat → List Nat
  | w0 :: w1 :: w2 :: w3 :: w4 :: w5 :: w6 :: w7 ::
    w8 :: w9 :: w10 :: w11 :: w12 :: w13 :: w14 :: w15 :: rest =>
      sha256Blocks (sha256Compress h [w0, w1, w2, w3, w4, w5, w6, w7, w8, w9, w10, w11, w12, w13, w14, w15]) rest
  | _ => h

/-- Lowercase hexadecimal digit. -/
def hexChar (n : Nat) : Char := "0123456789abcdef".data.getD n '0'

/-- A 32-bit word as eight lowercase hex characters. -/
def wordToHex (w : Nat) : List Char :=
  (List.range 8).map (fun i => hexChar ((w >>> (28 - 4 * i)) &&& 15))

/-- SHA-256 digest of a byte list, as a lowercase hex string
(`hex.EncodeToString(sha256.Sum256(...))`). -/
def sha256Hex (msg : List Nat) : String :=
  String.mk ((sha256Blocks sha256H0 (bytesToWords (sha256Pad msg))).map wordToHex).flatten

/-- UTF-8 encoding of one character (Go strings are UTF-8 byte sequences). -/
def utf8EncodeChar (c : Char) : List Nat :=
  let n := c.toNat
  if n < 128 then [n]
  else if n < 2048 then [192 + n / 64, 128 + n % 64]
  else if n < 65536 then [224 + n / 4096, 128 + (n / 64) % 64, 128 + n % 64]
  else [240 + n / 262144, 128 + (n / 4096) % 64, 128 + (n / 64) % 64, 128 + n % 64]

/-- The bytes of a Go string (`[]byte(s)`). -/
def utf8Bytes (s : String) : List Nat := (s.data.map utf8EncodeChar).flatten

/-- `UserService.hashToken`: the one-way digest of a raw token string
(src/internal/service/user_service.go). -/
def hashToken (token : String) : String := sha256Hex (utf8Bytes token)

/-! ## Data model

`Session` is the record stored under `session:{id}`
(src/internal/service/user_service.go).  `Product` is the persisted
product entity (fields as constructed in src/unnamed/part_002 and
src/internal/domain/entity_test.go).  UUIDs are modelled by their
canonical lowercase string form; instants by natural-number seconds;
float64 prices by rationals. -/

/-- A user session (`service.Session`). -/
structure Session where
  id : String
  userID : String
  email : String
  createdAt : Nat
  expiresAt : Nat
  ipAddress : String
  userAgent : String
  isActive : Bool
deriving Repr, DecidableEq

/-- A product entity (`domain.Product`). -/
structure Product where
  id : String
  name : String
  description : String
  price : ℚ
  stock : Int
  userID : String
  createdAt : Nat
  updatedAt : Nat
deriving Repr, DecidableEq

/-! ## The Redis cache store (src/internal/service/cache_service.go)

Every write goes through `CacheService.Set`, which JSON-marshals the
value; `CacheService.Get` unmarshals into the destination type and fails
on a shape mismatch.  Marshalled payloads are therefore modelled by their
typed content.  Redis is modelled as reachable (a dead store fails every
dependent operation and is outside the shallow embedding); `redis.Nil`
misses surface as `none`. -/

/-- A stored (JSON-marshalled) cache value. -/
inductive CacheVal where
  | sess (s : Session)
  | str (s : String)
  | flag (b : Bool)
  | prod (p : Product)
deriving Repr, DecidableEq

/-- One cache entry: key, value, and the TTL (seconds) it was written with. -/
structure CacheEntry where
  key : String
  val : CacheVal
  ttl : Nat
deriving Repr, DecidableEq

/-- The cache store contents. -/
abbrev Store := List CacheEntry

/-- `CacheService.Set`: marshal and `SET` with expiration (overwrites the key). -/
def cacheSet (st : Store) (key : String) (val : CacheVal) (ttl : Nat) : Store :=
  ⟨key, val, ttl⟩ :: st.filter (fun e => e.key ≠ key)

/-- `CacheService.Get`: the raw marshalled value under a key, `none` on `redis.Nil`. -/
def cacheGet (st : Store) (key : String) : Option CacheVal :=
  (st.find? (fun e => e.key == key)).map (·.val)

/-- `CacheService.Delete` (`DEL`, which succeeds on absent keys). -/
def cacheDelete (st : Store) (key : String) : Store :=
  st.filter (fun e => e.key ≠ key)

/-- `CacheService.Exists` (`EXISTS`). -/
def cacheExists (st : Store) (key : String) : Bool :=
  st.any (fun e => e.key == key)

/-- `KEYS pat*`: the keys matching a glob pattern of the shape `pat*`
(every pattern this repository scans with ends in a single `*`). -/
def keysMatching (st : Store) (pat : String) : List String :=
  (st.filter (fun e => pat.isPrefixOf e.key)).map (·.key)

/-- `CacheService.DeletePattern`: delete every key matching `pat*`. -/
def cacheDeletePattern (st : Store) (pat : String) : Store :=
  st.filter (fun e => ¬ pat.isPrefixOf e.key)

/-- Unmarshalling a stored value into a `*Session` destination. -/
def decodeSession : Option CacheVal → Option Session
  | some (.sess s) => some s
  | _ => none

/-- Unmarshalling a stored value into a `*Product` destination. -/
def decodeProduct : Option CacheVal → Option Product
  | some (.prod p) => some p
  | _ => none

/-! ## Session manager (src/internal/service/user_service.go, `SessionService`) -/

/-- The error cases of `SessionService.GetSession`: the wrapped
"session not found" error and the "session expired" error. -/
inductive SessionError where
  | notFound
  | expired
deriving Repr, DecidableEq

/-- `SessionService.DeleteSession`: read the session, drop the per-user
index entry when the read succeeds, then delete the session key.  The
returned error mirrors the `DEL` error, which cannot fire on a reachable
store. -/
def deleteSession (st : Store) (sessionID : String) : Store × Option String :=
  let key := "session:" ++ sessionID
  let st1 :=
    match decodeSession (cacheGet st key) with
    | some s => cacheDelete st ("user_sessions:" ++ s.userID)
    | none => st
  (cacheDelete st1 key, none)

/-- `SessionService.GetSession`: read the session; if `time.Now().After(expires_at)`
then delete it and fail with the expired error. -/
def getSession (st : Store) (now : Nat) (sessionID : String) : Store × Except SessionError Session :=
  let key := "session:" ++ sessionID
  match decodeSession (cacheGet st key) with
  | none => (st, .error .notFound)
  | some s =>
    if now > s.expiresAt then
      ((deleteSession st sessionID).1, .error .expired)
    else
      (st, .ok s)

/-- `SessionService.IsSessionValid`: a session is valid iff retrievable,
active and `time.Now().Before(expires_at)`; read errors are swallowed
into `false`. -/
def isSessionValid (st : Store) (now : Nat) (sessionID : String) : Store × Bool :=
  match getSession st now sessionID with
  | (st1, .error _) => (st1, false)
  | (st1, .ok s) => (st1, s.isActive && decide (now < s.expiresAt))

/-- The per-session filter shared by `GetActiveSessionsCount` and
`GetUserSessions`: decode the key, keep sessions of this user that are
active and unexpired. -/
def activeFor (st : Store) (now : Nat) (userID : String) (key : String) : Option Session :=
  match decodeSession (cacheGet st key) with
  | some s => if s.userID == userID && s.isActive && decide (now < s.expiresAt) then some s else none
  | none => none

/-- `SessionService.GetActiveSessionsCount`: scan `session:*` keys and
count this user's active, unexpired sessions. -/
def getActiveSessionsCount (st : Store) (now : Nat) (userID : String) : Nat :=
  (keysMatching st "session:").foldl
    (fun count key =>
      match activeFor st now userID key with
      | some _ => count + 1
      | none => count)
    0

/-- `SessionService.GetUserSessions`: the same scan with the same filter,
collecting the sessions. -/
def sessGetUserSessions (st : Store) (now : Nat) (userID : String) : List Session :=
  (keysMatching st "session:").foldl
    (fun sessions key =>
      match activeFor st now userID key with
      | some s => sessions ++ [s]
      | none => sessions)
    []

/-! ## Blacklist manager (src/internal/service/user_service.go) -/

/-- TTL of an individual token-blacklist entry: `24 * time.Hour`, in seconds
(`UserService.BlacklistToken`). -/
def blacklistTokenTTL : Nat := 24 * 3600

/-- Access-token lifetime: `time.Now().Add(time.Hour)` (`generateAccessToken`). -/
def accessTokenLifetime : Nat := 3600

/-- Refresh-token lifetime: `time.Now().Add(7 * 24 * time.Hour)`
(`generateRefreshToken`). -/
def refreshTokenLifetime : Nat := 7 * 24 * 3600

/-- The blacklist key of a raw token: `blacklist:{sha256-hex}`. -/
def blacklistKey (token : String) : String := "blacklist:" ++ hashToken token

/-- `UserService.BlacklistToken`: write a `true` flag under the digest key
with the 24h TTL. -/
def blacklistToken (st : Store) (token : String) : Store :=
  cacheSet st (blacklistKey token) (.flag true) blacklistTokenTTL

/-- `UserService.IsTokenBlacklisted`: recompute the digest and check existence. -/
def isTokenBlacklisted (st : Store) (token : String) : Bool :=
  cacheExists st (blacklistKey token)

/-- The bulk-blacklist key of a (user, session) pair:
`user_blacklist:{userID}:{sessionID}`. -/
def userBlacklistKey (userID sessionID : String) : String :=
  "user_blacklist:" ++ userID ++ ":" ++ sessionID

/-- `UserService.IsUserSessionBlacklisted`. -/
def isUserSessionBlacklisted (st : Store) (userID sessionID : String) : Bool :=
  cacheExists st (userBlacklistKey userID sessionID)

/-- A blacklist store built by blacklisting each listed raw token in turn
(starting from an empty blacklist). -/
def blacklistStore (tokens : List String) : Store :=
  tokens.foldl blacklistToken []

/-! ## UserService.GetUserSessions (the GET /auth/sessions payload) -/

/-- `domain.SessionInfo` (src/unnamed/part_000). -/
structure SessionInfo where
  sessionID : String
  userID : String
  email : String
  createdAt : Nat
  expiresAt : Nat
  ipAddress : String
  userAgent : String
  isActive : Bool
deriving Repr, DecidableEq

/-- `domain.UserSessionsResponse` (src/unnamed/part_000). -/
structure UserSessionsResponse where
  activeSessions : List SessionInfo
  totalSessions : Nat
deriving Repr, DecidableEq

/-- `UserService.GetUserSessions`: count active sessions and return the
response with a literal empty `ActiveSessions` slice
(src/internal/service/user_service.go lines 233-244). -/
def userGetUserSessions (st : Store) (now : Nat) (userID : String) : UserSessionsResponse :=
  { activeSessions := []
    totalSessions := getActiveSessionsCount st now userID }

/-! ## UUID parsing (github.com/google/uuid)

`uuid.Parse` accepts the canonical 36-character form, the same form
wrapped in one leading and one trailing extra character (the braced
variant: the library slices `s[1:37]` for length 38 without inspecting
the wrapper characters), the `urn:uuid:`-prefixed form (case-insensitive
prefix), and the plain 32-hex-digit form.  `uuid.UUID.String()` renders
the canonical lowercase dashed form; UUIDs compare by byte equality, so
the canonical string is a faithful model of the parsed value. -/

/-- Hexadecimal digit test (`xtob`). -/
def isHexChar (c : Char) : Bool :=
  (48 ≤ c.toNat && c.toNat ≤ 57) || (97 ≤ c.toNat && c.toNat ≤ 102) || (65 ≤ c.toNat && c.toNat ≤ 70)

/-- Lowercase a character list. -/
def toLowerAll (cs : List Char) : List Char := cs.map Char.toLower

/-- The 32 hex digits of a 36-character dashed UUID body. -/
def uuidHexDigits (b : List Char) : List Char :=
  b.take 8 ++ ((b.drop 9).take 4) ++ ((b.drop 14).take 4) ++ ((b.drop 19).take 4) ++ b.drop 24

/-- Insert the canonical dashes into 32 hex digits. -/
def uuidCanonical (h : List Char) : List Char :=
  h.take 8 ++ '-' :: ((h.drop 8).take 4) ++ '-' :: ((h.drop 12).take 4) ++
    '-' :: ((h.drop 16).take 4) ++ '-' :: h.drop 20

/-- `uuid.Parse`, returning the canonical lowercase string of the parsed UUID. -/
def uuidParse (s : String) : Option String :=
  let cs := s.data
  if cs.length == 32 then
    if cs.all isHexChar then some (String.mk (uuidCanonical (toLowerAll cs))) else none
  else
    let body? : Option (List Char) :=
      if cs.length == 36 then some cs
      else if cs.length == 45 then
        if toLowerAll (cs.take 9) == "urn:uuid:".data then some (cs.drop 9) else none
      else if cs.length == 38 then some ((cs.drop 1).take 36)
      else none
    match body? with
    | none => none
    | some b =>
      if b.getD 8 ' ' == '-' && b.getD 13 ' ' == '-' && b.getD 18 ' ' == '-' && b.getD 23 ' ' == '-'
          && (uuidHexDigits b).all isHexChar then
        some (String.mk (uuidCanonical (toLowerAll (uuidHexDigits b))))
      else none

/-! ## JWT verification (github.com/golang-jwt/jwt/v5 at the repository's call sites)

A presented token is modelled by its decoded form: the signing algorithm
of its header, whether its signature verifies under the server's
`jwtSecret`, and its claim map.  The compact-serialization decoding
itself is a parameter (`decode` below); `none` models a malformed token
string.  `jwt.Parse` with this repository's key function fails unless the
algorithm is in the HMAC family (`*jwt.SigningMethodHMAC`); it then
verifies the signature and runs the v5 claim validation: `exp`, `iat` and
`nbf` are each checked when present as a nonzero number and make parsing
fail when present with a non-numeric shape.  The default parser decodes
into `jwt.MapClaims`, so the `token.Claims.(jwt.MapClaims)` assertion in
the middleware cannot fail and has no counterpart here. -/

/-- A JSON claim value. -/
inductive JsonVal where
  | str (s : String)
  | num (n : Int)
  | boolean (b : Bool)
  | null
deriving Repr, DecidableEq

/-- The signing algorithm named by a token header. -/
inductive JwtAlg where
  | HS256
  | HS384
  | HS512
  | RS256
  | ES256
  | noAlg
deriving Repr, DecidableEq

/-- Membership in the HMAC family (`*jwt.SigningMethodHMAC`). -/
def isHMAC : JwtAlg → Bool
  | .HS256 => true
  | .HS384 => true
  | .HS512 => true
  | _ => false

/-- A decoded token: header algorithm, signature validity under the
server secret, and the claim map. -/
structure Jwt where
  alg : JwtAlg
  sigValid : Bool
  claims : List (String × JsonVal)
deriving Repr, DecidableEq

/-- Claim lookup in the decoded claim map. -/
def claimLookup (j : Jwt) (key : String) : Option JsonVal :=
  (j.claims.find? (fun p => p.1 == key)).map (·.2)

/-- `MapClaims.parseNumericDate`: absent or zero numeric dates impose no
check; non-numeric shapes are an invalid-type error. -/
def numericDate (j : Jwt) (key : String) : Except Unit (Option Int) :=
  match claimLookup j key with
  | none => .ok none
  | some (.num n) => if n == 0 then .ok none else .ok (some n)
  | some _ => .error ()

/-- The v5 claim validation run by `jwt.Parse`. -/
def jwtClaimsValid (j : Jwt) (now : Nat) : Bool :=
  (match numericDate j "exp" with
   | .error _ => false
   | .ok none => true
   | .ok (some e) => decide ((now : Int) < e)) &&
  (match numericDate j "iat" with
   | .error _ => false
   | .ok none => true
   | .ok (some i) => decide (i ≤ (now : Int))) &&
  (match numericDate j "nbf" with
   | .error _ => false
   | .ok none => true
   | .ok (some n) => decide (n ≤ (now : Int)))

/-- `jwt.Parse` success (`err == nil && token.Valid`) for a decoded token,
under the repository's HMAC-only key function. -/
def jwtParseOK (j : Jwt) (now : Nat) : Bool :=
  isHMAC j.alg && j.sigValid && jwtClaimsValid j now

/-! ## Auth middleware (src/cmd/api/internal/router/router.go, `AuthMiddleware`)

Every failure is a 401 response with a distinct message followed by
`c.Abort()`; success stores `user_id`, `session_id` and the raw token in
the request context and calls `c.Next()`. -/

/-- The outcome of the middleware: a 401 with its message, or the context
values attached on success. -/
inductive AuthResult where
  | unauthorized (message : String)
  | success (userID sessionID token : String)
deriving Repr, DecidableEq

/-- `strings.HasPrefix(s, pre)`. -/
def hasPrefixStr (s pre : String) : Bool := pre.data.isPrefixOf s.data

/-- Dropping the first `n` characters; for the ASCII prefix "Bearer "
this is exactly `strings.TrimPrefix` after the prefix test. -/
def dropChars (s : String) (n : Nat) : String := String.mk (s.data.drop n)

/-- `AuthMiddleware`: the full check sequence, threading the store through
the session lookup (whose lazy expiry may delete a session record). -/
def authMiddleware (decode : String → Option Jwt) (st : Store) (now : Nat)
    (authHeader : String) : Store × AuthResult :=
  if authHeader == "" then
    (st, .unauthorized "Authorization header is required")
  else if ¬ hasPrefixStr authHeader "Bearer " then
    (st, .unauthorized "Invalid authorization header format")
  else
    let tokenString := dropChars authHeader 7
    match decode tokenString with
    | none => (st, .unauthorized "Invalid or expired token")
    | some j =>
      if ¬ jwtParseOK j now then
        (st, .unauthorized "Invalid or expired token")
      else
        match claimLookup j "user_id" with
        | some (.str userIDStr) =>
          match claimLookup j "session_id" with
          | some (.str sessionID) =>
            match uuidParse userIDStr with
            | some userID =>
              let r := isSessionValid st now sessionID
              if ¬ r.2 then
                (r.1, .unauthorized "Session expired or invalid")
              else if isTokenBlacklisted r.1 tokenString then
                (r.1, .unauthorized "Token has been invalidated")
              else if isUserSessionBlacklisted r.1 userID sessionID then
                (r.1, .unauthorized "Session has been invalidated by logout all")
              else
                (r.1, .success userID sessionID tokenString)
            | none => (st, .unauthorized "Invalid user ID format")
          | _ => (st, .unauthorized "Invalid session ID in token")
        | _ => (st, .unauthorized "Invalid user ID in token")

/-- The unauthorized messages the middleware can emit, in check order. -/
def authFailureMessages : List String :=
  ["Authorization header is required",
   "Invalid authorization header format",
   "Invalid or expired token",
   "Invalid token claims",
   "Invalid user ID in token",
   "Invalid session ID in token",
   "Invalid user ID format",
   "Session expired or invalid",
   "Token has been invalidated",
   "Session has been invalidated by logout all"]

/-- The five outcomes of the Auth Gatekeeper state machine of spec §4.5. -/
inductive GateOutcome where
  | missingCredentials
  | invalidToken
  | sessionInvalid
  | tokenRevoked
  | sessionRevokedByLogoutAll
  | authorized (userID sessionID token : String)
deriving Repr, DecidableEq

/-- Modelled from the spec (§4.5): the Auth Gatekeeper evaluates five
checks in strict order — (1) header present and Bearer-prefixed, (2)
token algorithm/signature/expiry and claim shape valid, (3) referenced
session valid, (4) token not individually blacklisted, (5) the
(user, session) pair not bulk-blacklisted — short-circuiting at the
first failure, and on full success attaches user id, session id and the
raw token.  The claim-shape requirement of check (2) is the shape the
gatekeeper itself consumes (string `user_id` that parses as a UUID and
string `session_id`); which claims verification checks is settled
separately by the claim on §4.3. -/
def authGatekeeperSpec (decode : String → Option Jwt) (st : Store) (now : Nat)
    (authHeader : String) : GateOutcome :=
  if authHeader == "" || ¬ hasPrefixStr authHeader "Bearer " then
    .missingCredentials
  else
    let tok := dropChars authHeader 7
    let shape? : Option (String × String) :=
      match decode tok with
      | none => none
      | some j =>
        if jwtParseOK j now then
          match claimLookup j "user_id", claimLookup j "session_id" with
          | some (.str u), some (.str sid) => (uuidParse u).map (fun uid => (uid, sid))
          | _, _ => none
        else none
    match shape? with
    | none => .invalidToken
    | some (userID, sessionID) =>
      if ¬ (isSessionValid st now sessionID).2 then .sessionInvalid
      else if isTokenBlacklisted st tok then .tokenRevoked
      else if isUserSessionBlacklisted st userID sessionID then .sessionRevokedByLogoutAll
      else .authorized userID sessionID tok

/-- Grouping of the middleware's distinct 401 messages by the spec §4.5
check that produced them. -/
def classifyAuthResult : AuthResult → GateOutcome
  | .success u s t => .authorized u s t
  | .unauthorized m =>
    if m == "Authorization header is required" || m == "Invalid authorization header format" then
      .missingCredentials
    else if m == "Session expired or invalid" then .sessionInvalid
    else if m == "Token has been invalidated" then .tokenRevoked
    else if m == "Session has been invalidated by logout all" then .sessionRevokedByLogoutAll
    else .invalidToken

/-! ## Input validation (src/cmd/api/internal/validation/validation.go)

The validation regexes are single character-class repetitions
(`^[...]+$`), embedded as total character predicates.  Go `len` is a byte
length, embedded via `utf8Bytes`.  `strings.TrimSpace` trims Unicode
white space; the embedding covers the ASCII white-space characters plus
U+0085 and U+00A0 (the white space of the Latin-1 range). -/

/-- Go `unicode.IsSpace` on the Latin-1 range. -/
def isUnicodeSpace (c : Char) : Bool :=
  let n := c.toNat
  n == 32 || (9 ≤ n && n ≤ 13) || n == 133 || n == 160

/-- `strings.TrimSpace`. -/
def trimSpace (s : String) : String :=
  String.mk ((s.data.dropWhile isUnicodeSpace).reverse.dropWhile isUnicodeSpace).reverse

/-- `validation.SanitizeInput`: drop control characters (code points below
32 and 127), then trim white space. -/
def sanitizeInput (s : String) : String :=
  trimSpace (String.mk (s.data.filter (fun c => 32 ≤ c.toNat && c.toNat ≠ 127)))

/-- ASCII letter or digit. -/
def isAlphaNum (c : Char) : Bool :=
  let n := c.toNat
  (65 ≤ n && n ≤ 90) || (97 ≤ n && n ≤ 122) || (48 ≤ n && n ≤ 57)

/-- Go regexp `\s`: tab, newline, form feed, carriage return, space. -/
def isRegexSpace (c : Char) : Bool :=
  c.toNat == 9 || c.toNat == 10 || c.toNat == 12 || c.toNat == 13 || c.toNat == 32

/-- The character class of `productNameRegex`:
letters, digits, white space, and `- _ . , ! ? ( ) &`. -/
def productNameCharOK (c : Char) : Bool :=
  isAlphaNum c || isRegexSpace c || [45, 95, 46, 44, 33, 63, 40, 41, 38].contains c.toNat

/-- The character class of `descriptionRegex`: the product-name class plus
`@ # $ % * + = : ; apostrophe quote < > [ ] braces | backslash / ~`. -/
def descriptionCharOK (c : Char) : Bool :=
  productNameCharOK c ||
    [64, 35, 36, 37, 42, 43, 61, 58, 59, 39, 34, 60, 62, 91, 93, 123, 125, 124, 92, 47, 126].contains c.toNat

/-- `validation.ValidateProductName`; `none` means valid, `some` carries the
error message. -/
def validateProductName (name : String) : Option String :=
  let name := trimSpace name
  if name == "" then some "product name is required"
  else if (utf8Bytes name).length < 2 then some "product name must be at least 2 characters long"
  else if (utf8Bytes name).length > 200 then some "product name is too long"
  else if ¬ name.data.all productNameCharOK then some "product name contains invalid characters"
  else none

/-- `validation.ValidateDescription`. -/
def validateDescription (description : String) : Option String :=
  if description == "" then none
  else
    let d := trimSpace description
    if (utf8Bytes d).length > 1000 then some "description is too long"
    else if d.data.isEmpty || ¬ d.data.all descriptionCharOK then some "description contains invalid characters"
    else none

/-- `validation.ValidatePrice` (MinPrice = 0.01, MaxPrice = 999999.99). -/
def validatePrice (price : ℚ) : Option String :=
  if price < 1 / 100 then some "price must be greater than 0"
  else if price > 99999999 / 100 then some "price is too high"
  else none

/-- `validation.ValidateStock` (MinStock = 0, MaxStock = 999999). -/
def validateStock (stock : Int) : Option String :=
  if stock < 0 then some "stock cannot be negative"
  else if stock > 999999 then some "stock value is too high"
  else none

/-- `strings.Contains` on character lists. -/
def containsSub (hay pat : List Char) : Bool :=
  if pat.isPrefixOf hay then true
  else
    match hay with
    | [] => false
    | _ :: t => containsSub t pat

/-- The dangerous substrings of `validation.CheckSQLInjection`. -/
def sqlInjectionPatterns : List String :=
  ["union", "select", "insert", "update", "delete", "drop", "create",
   "alter", "exec", "execute", "script", "javascript", "vbscript",
   "<script", "javascript:", "onload", "onerror", "onclick"]

/-- `validation.CheckSQLInjection`: lowercase the input and look for any
dangerous substring. -/
def checkSQLInjection (input : String) : Bool :=
  let lower := input.data.map Char.toLower
  sqlInjectionPatterns.any (fun p => containsSub lower p.data)

/-- `handler.validateUUID` (src/unnamed/part_002). -/
def validateUUID (id : String) : Except String String :=
  if id == "" then .error "ID is required"
  else
    match uuidParse id with
    | none => .error "invalid ID format"
    | some u => .ok u

/-! ## Product service (src/internal/service/product_service.go) -/

/-- The persisted products table (the relational store). -/
abbrev ProductTable := List Product

/-- `GenericRepository.GetByID` for products; `none` is the
"entity not found" error. -/
def repoGetByID (table : ProductTable) (id : String) : Option Product :=
  table.find? (fun p => p.id == id)

/-- `ProductService.invalidateUserCache`: delete the user-list and stats
entries and pattern-delete the filtered and cursor query entries. -/
def invalidateUserCache (st : Store) (userID : String) : Store :=
  cacheDeletePattern
    (cacheDeletePattern
      (cacheDelete (cacheDelete st ("user_products:" ++ userID)) ("user_stats:" ++ userID))
      ("user_products_filtered:" ++ userID ++ ":"))
    ("user_products_cursor:" ++ userID ++ ":")

/-- `ProductService.GetByID`: consult the per-(user, product) cache entry,
fall back to the repository, reject non-owners, and cache hits for 30
minutes. -/
def svcProductGetByID (st : Store) (table : ProductTable) (id userID : String) :
    Store × Except String Product :=
  let cacheKey := "product:" ++ userID ++ ":" ++ id
  match decodeProduct (cacheGet st cacheKey) with
  | some p => (st, .ok p)
  | none =>
    match repoGetByID table id with
    | none => (st, .error "entity not found")
    | some p =>
      if p.userID ≠ userID then (st, .error "unauthorized access to product")
      else (cacheSet st cacheKey (.prod p) (30 * 60), .ok p)

/-- `ProductService.Update`: load the stored product, reject non-owners,
overwrite name/description/price only when the incoming value is not the
zero value, overwrite stock whenever it is non-negative, refresh
`UpdatedAt`, persist, and invalidate the user's cache entries. -/
def svcProductUpdate (st : Store) (table : ProductTable) (product : Product)
    (userID : String) (now : Nat) : Store × ProductTable × Except String Product :=
  match repoGetByID table product.id with
  | none => (st, table, .error "entity not found")
  | some existing =>
    if existing.userID ≠ userID then (st, table, .error "unauthorized access to product")
    else
      let updated : Product :=
        { existing with
          name := if product.name ≠ "" then product.name else existing.name
          description := if product.description ≠ "" then product.description else existing.description
          price := if product.price > 0 then product.price else existing.price
          stock := if product.stock ≥ 0 then product.stock else existing.stock
          updatedAt := now }
      (invalidateUserCache st userID,
       table.map (fun p => if p.id == product.id then updated else p),
       .ok updated)

/-- `ProductService.Delete`: load, reject non-owners, delete, invalidate. -/
def svcProductDelete (st : Store) (table : ProductTable) (id userID : String) :
    Store × ProductTable × Except String Unit :=
  match repoGetByID table id with
  | none => (st, table, .error "entity not found")
  | some existing =>
    if existing.userID ≠ userID then (st, table, .error "unauthorized access to product")
    else
      (invalidateUserCache st userID, table.filter (fun p => p.id ≠ id), .ok ())

/-! ## Product HTTP handlers (src/unnamed/part_002) -/

/-- A handler response with its HTTP status code. -/
inductive HttpReply where
  | failure (status : Nat) (error message : String)
  | productBody (status : Nat) (p : Product)
  | messageBody (status : Nat) (message : String)
deriving Repr, DecidableEq

/-- `domain.UpdateProductRequest`: every field optional. -/
structure UpdateProductRequest where
  name : Option String
  description : Option String
  price : Option ℚ
  stock : Option Int
deriving Repr, DecidableEq

/-- The field-by-field validation of `ProductHandler.Update`: sanitize and
validate each provided field in request order, short-circuiting with the
handler's 400 payload (error title, message); returns the sanitized
request. -/
def validateUpdateRequest (req : UpdateProductRequest) :
    Except (String × String) UpdateProductRequest := do
  let name? : Option String ←
    match req.name with
    | some n0 =>
      let n := sanitizeInput n0
      match validateProductName n with
      | some err => throw ("Validation Error", "Name: " ++ err)
      | none =>
        if checkSQLInjection n then throw ("Security Error", "Invalid name input detected")
        else pure (some n)
    | none => pure none
  let description? : Option String ←
    match req.description with
    | some d0 =>
      let d := sanitizeInput d0
      match validateDescription d with
      | some err => throw ("Validation Error", "Description: " ++ err)
      | none =>
        if checkSQLInjection d then throw ("Security Error", "Invalid description input detected")
        else pure (some d)
    | none => pure none
  match req.price with
  | some p =>
    match validatePrice p with
    | some err => throw ("Validation Error", "Price: " ++ err)
    | none => pure ()
  | none => pure ()
  match req.stock with
  | some s =>
    match validateStock s with
    | some err => throw ("Validation Error", "Stock: " ++ err)
    | none => pure ()
  | none => pure ()
  pure { name := name?, description := description?, price := req.price, stock := req.stock }

/-- The nil UUID (`uuid.Nil`), the zero value of `domain.Product.UserID`. -/
def nilUUID : String := "00000000-0000-0000-0000-000000000000"

/-- The product value `ProductHandler.Update` builds from the request:
Go zero values for every omitted field. -/
def buildUpdateProduct (id : String) (req : UpdateProductRequest) : Product :=
  { id := id
    name := req.name.getD ""
    description := req.description.getD ""
    price := req.price.getD 0
    stock := req.stock.getD 0
    userID := nilUUID
    createdAt := 0
    updatedAt := 0 }

/-- `ProductHandler.GetByID`: 400 on a bad id, 404 with the service error
message on any service failure, 200 with the product on success. -/
def productHandlerGetByID (st : Store) (table : ProductTable) (idStr userID : String) :
    Store × HttpReply :=
  match validateUUID idStr with
  | .error msg => (st, .failure 400 "Bad Request" msg)
  | .ok id =>
    match svcProductGetByID st table id userID with
    | (st1, .error e) => (st1, .failure 404 "Not Found" e)
    | (st1, .ok p) => (st1, .productBody 200 p)

/-- `ProductHandler.Update`: 400 on a bad id or failed field validation,
400 "Update Failed" on any service failure, 200 on success. -/
def productHandlerUpdate (st : Store) (table : ProductTable) (idStr : String)
    (req : UpdateProductRequest) (userID : String) (now : Nat) :
    Store × ProductTable × HttpReply :=
  match validateUUID idStr with
  | .error msg => (st, table, .failure 400 "Bad Request" msg)
  | .ok id =>
    match validateUpdateRequest req with
    | .error (e, m) => (st, table, .failure 400 e m)
    | .ok req1 =>
      match svcProductUpdate st table (buildUpdateProduct id req1) userID now with
      | (st1, t1, .error e) => (st1, t1, .failure 400 "Update Failed" e)
      | (st1, t1, .ok _) => (st1, t1, .messageBody 200 "Product updated successfully")

/-- `ProductHandler.Delete`: 400 on a bad id, 400 "Deletion Failed" on any
service failure, 200 on success. -/
def productHandlerDelete (st : Store) (table : ProductTable) (idStr userID : String) :
    Store × ProductTable × HttpReply :=
  match validateUUID idStr with
  | .error msg => (st, table, .failure 400 "Bad Request" msg)
  | .ok id =>
    match svcProductDelete st table id userID with
    | (st1, t1, .error e) => (st1, t1, .failure 400 "Deletion Failed" e)
    | (st1, t1, .ok _) => (st1, t1, .messageBody 200 "Product deleted successfully")

/-! ## Query cache keys (src/internal/service/product_service.go)

`generateQueryCacheKey` and `generateCursorQueryCacheKey` are
`fmt.Sprintf("...:%s:%s", userID, json.Marshal(query))`.  `encoding/json`
marshals a struct's fields in declaration order with their tag names, so
the encoding below is a function of the query value alone.  Numeric and
time rendering (Go float64 shortest form, RFC3339 timestamps) are
abstracted by deterministic injective renderings of the modelled values;
slices are rendered as arrays. -/

/-- `domain.ProductFilter`. -/
structure ProductFilter where
  name : Option String
  minPrice : Option ℚ
  maxPrice : Option ℚ
  minStock : Option Int
  maxStock : Option Int
  createdFrom : Option Nat
  createdTo : Option Nat
  updatedFrom : Option Nat
  updatedTo : Option Nat
deriving Repr, DecidableEq

/-- `domain.SortField`. -/
structure SortField where
  field : String
  direction : String
deriving Repr, DecidableEq

/-- `domain.Pagination`. -/
structure Pagination where
  page : Int
  pageSize : Int
deriving Repr, DecidableEq

/-- `domain.CursorPagination`. -/
structure CursorPagination where
  cursor : Option String
  pageSize : Int
deriving Repr, DecidableEq

/-- `domain.ProductQuery`. -/
structure ProductQuery where
  filter : ProductFilter
  sort : List SortField
  pagination : Pagination
deriving Repr, DecidableEq

/-- `domain.ProductQueryCursor`. -/
structure ProductQueryCursor where
  filter : ProductFilter
  sort : List SortField
  pagination : CursorPagination
deriving Repr, DecidableEq

/-- JSON string escaping: quote, backslash, control characters and the
HTML-escaped `< > &`. -/
def jsonEscapeChar (c : Char) : List Char :=
  if c.toNat == 34 || c.toNat == 92 then [Char.ofNat 92, c]
  else if c.toNat < 32 || c.toNat == 60 || c.toNat == 62 || c.toNat == 38 then
    [Char.ofNat 92, 'u', '0', '0', hexChar (c.toNat / 16), hexChar (c.toNat % 16)]
  else [c]

/-- A JSON string literal. -/
def jsonString (s : String) : String :=
  String.mk (Char.ofNat 34 :: (s.data.map jsonEscapeChar).flatten ++ [Char.ofNat 34])

/-- A JSON integer. -/
def jsonInt (n : Int) : String := toString n

/-- The rendering of a modelled float64 value. -/
def jsonRat (q : ℚ) : String := toString q

/-- The rendering of a modelled time.Time value. -/
def jsonTime (t : Nat) : String := jsonString (toString t)

/-- An optional field: `null` or the rendered value. -/
def jsonOpt {α : Type} (f : α → String) : Option α → String
  | none => "null"
  | some x => f x

/-- The JSON object for a `ProductFilter` (fields in declaration order). -/
def encodeFilter (f : ProductFilter) : String :=
  "\x7b\"name\":" ++ jsonOpt jsonString f.name ++
  ",\"min_price\":" ++ jsonOpt jsonRat f.minPrice ++
  ",\"max_price\":" ++ jsonOpt jsonRat f.maxPrice ++
  ",\"min_stock\":" ++ jsonOpt jsonInt f.minStock ++
  ",\"max_stock\":" ++ jsonOpt jsonInt f.maxStock ++
  ",\"created_from\":" ++ jsonOpt jsonTime f.createdFrom ++
  ",\"created_to\":" ++ jsonOpt jsonTime f.createdTo ++
  ",\"updated_from\":" ++ jsonOpt jsonTime f.updatedFrom ++
  ",\"updated_to\":" ++ jsonOpt jsonTime f.updatedTo ++ "\x7d"

/-- The JSON object for a `SortField`. -/
def encodeSortField (s : SortField) : String :=
  "\x7b\"field\":" ++ jsonString s.field ++ ",\"direction\":" ++ jsonString s.direction ++ "\x7d"

/-- The JSON array for the sort list. -/
def encodeSortList (l : List SortField) : String :=
  "[" ++ String.intercalate "," (l.map encodeSortField) ++ "]"

/-- The JSON object for a `Pagination`. -/
def encodePagination (p : Pagination) : String :=
  "\x7b\"page\":" ++ jsonInt p.page ++ ",\"page_size\":" ++ jsonInt p.pageSize ++ "\x7d"

/-- The JSON object for a `CursorPagination`. -/
def encodeCursorPagination (p : CursorPagination) : String :=
  "\x7b\"cursor\":" ++ jsonOpt jsonString p.cursor ++ ",\"page_size\":" ++ jsonInt p.pageSize ++ "\x7d"

/-- `json.Marshal` of a `ProductQuery`. -/
def encodeQuery (q : ProductQuery) : String :=
  "\x7b\"filter\":" ++ encodeFilter q.filter ++
  ",\"sort\":" ++ encodeSortList q.sort ++
  ",\"pagination\":" ++ encodePagination q.pagination ++ "\x7d"

/-- `json.Marshal` of a `ProductQueryCursor`. -/
def encodeQueryCursor (q : ProductQueryCursor) : String :=
  "\x7b\"filter\":" ++ encodeFilter q.filter ++
  ",\"sort\":" ++ encodeSortList q.sort ++
  ",\"pagination\":" ++ encodeCursorPagination q.pagination ++ "\x7d"

/-- `ProductService.generateQueryCacheKey`. -/
def generateQueryCacheKey (userID : String) (q : ProductQuery) : String :=
  "user_products_filtered:" ++ userID ++ ":" ++ encodeQuery q

/-- `ProductService.generateCursorQueryCacheKey`. -/
def generateCursorQueryCacheKey (userID : String) (q : ProductQueryCursor) : String :=
  "user_products_cursor:" ++ userID ++ ":" ++ encodeQueryCursor q

/-- Semantic identity of two offset-pagination queries: equal filter
values, equal sort lists, equal pagination values. -/
def ProductQuery.semanticallyEqual (q1 q2 : ProductQuery) : Prop :=
  q1.filter = q2.filter ∧ q1.sort = q2.sort ∧ q1.pagination = q2.pagination

/-- Semantic identity of two cursor-pagination queries. -/
def ProductQueryCursor.semanticallyEqual (q1 q2 : ProductQueryCursor) : Prop :=
  q1.filter = q2.filter ∧ q1.sort = q2.sort ∧ q1.pagination = q2.pagination

/-- The HTTP status code of a handler response. -/
def statusOf : HttpReply → Nat
  | .failure s _ _ => s
  | .productBody s _ => s
  | .messageBody s _ => s

/-! ## Concrete fixtures used by witnesses and counterexamples -/

/-- A user id in canonical UUID form. -/
def sampleUserID : String := "123e4567-e89b-12d3-a456-426614174000"

/-- A valid HS256 token carrying only `user_id`, `session_id` and `exp` —
no `type` (token_type) claim and no `email` claim. -/
def tokenWithoutType : Jwt :=
  { alg := .HS256
    sigValid := true
    claims := [("user_id", .str sampleUserID), ("session_id", .str "sess-1"), ("exp", .num 1000)] }

/-- A decoding environment containing the single well-formed token string
"tok.notype". -/
def decodeTable : String → Option Jwt :=
  fun s => if s == "tok.notype" then some tokenWithoutType else none

/-- An active session for `sampleUserID` expiring at tick 500. -/
def sessionOne : Session :=
  { id := "sess-1", userID := sampleUserID, email := "a@x.com", createdAt := 0,
    expiresAt := 500, ipAddress := "127.0.0.1", userAgent := "ua", isActive := true }

/-- A store holding only `sessionOne`. -/
def storeWithSessionOne : Store := [⟨"session:sess-1", .sess sessionOne, 86400⟩]

/-- A session expiring exactly at tick 100. -/
def boundarySession : Session :=
  { id := "s1", userID := "u1", email := "", createdAt := 0, expiresAt := 100,
    ipAddress := "", userAgent := "", isActive := true }

/-- A store holding only `boundarySession`. -/
def boundaryStore : Store := [⟨"session:s1", .sess boundarySession, 86400⟩]

/-- The id of user A. -/
def userA : String := "aaaaaaaa-aaaa-4aaa-8aaa-aaaaaaaaaaaa"

/-- The id of user B. -/
def userB : String := "bbbbbbbb-bbbb-4bbb-8bbb-bbbbbbbbbbbb"

/-- A product owned by user A. -/
def productOwnedByA : Product :=
  { id := "11111111-1111-4111-8111-111111111111", name := "Widget", description := "A widget",
    price := 2999 / 100, stock := 5, userID := userA, createdAt := 10, updatedAt := 10 }

/-- A products table holding only `productOwnedByA`. -/
def tableOne : ProductTable := [productOwnedByA]

/-- An update request that provides no field at all. -/
def emptyUpdateRequest : UpdateProductRequest :=
  { name := none, description := none, price := none, stock := none }

/-- An incoming update product: new name, zero description/price, stock 0
(the value `ProductHandler.Update` builds when the request omits stock). -/
def incomingUpdate : Product :=
  { id := productOwnedByA.id, name := "New Name", description := "", price := 0, stock := 0,
    userID := nilUUID, createdAt := 0, updatedAt := 0 }

/-- A sample filter. -/
def sampleFilter : ProductFilter :=
  { name := some "Widget", minPrice := some 20, maxPrice := some 100, minStock := none,
    maxStock := none, createdFrom := none, createdTo := none, updatedFrom := none,
    updatedTo := none }

/-- A query written with fields in declaration order. -/
def queryA : ProductQuery :=
  { filter := sampleFilter
    sort := [{ field := "price", direction := "asc" }]
    pagination := { page := 1, pageSize := 20 } }

/-- The same query value, written with fields in a different incidental
order. -/
def queryB : ProductQuery :=
  { pagination := { pageSize := 20, page := 1 }
    sort := [{ direction := "asc", field := "price" }]
    filter := sampleFilter }

/-- A cursor query written in declaration order. -/
def cursorQueryA : ProductQueryCursor :=
  { filter := sampleFilter
    sort := []
    pagination := { cursor := some "last-id", pageSize := 20 } }

/-- The same cursor query value, fields written in a different order. -/
def cursorQueryB : ProductQueryCursor :=
  { pagination := { pageSize := 20, cursor := some "last-id" }
    sort := []
    filter := sampleFilter }

/-! ## Helper lemmas -/

set_option maxRecDepth 40000 in
/-- The SHA-256 embedding reproduces the FIPS 180 test vector for "abc". -/
theorem hashToken_fips_vector :
    hashToken "abc" = "ba7816bf8f01cfea414140de5dae2223b00361a396177a9cb410ff61f20015ad" := by
  rfl

/-- Reading a key immediately after deleting it misses. -/
theorem cacheGet_cacheDelete_self (st : Store) (k : String) :
    cacheGet (cacheDelete st k) k = none := by
  unfold cacheGet cacheDelete
  rw [List.find?_eq_none.mpr]
  · rfl
  · intro e he
    have h := (List.mem_filter.mp he).2
    simp only [ne_eq, decide_not, Bool.not_eq_eq_eq_not, Bool.not_true, decide_eq_false_iff_not] at h
    simp [h]

/-- Deleting a key twice equals deleting it once. -/
theorem cacheDelete_idem (st : Store) (k : String) :
    cacheDelete (cacheDelete st k) k = cacheDelete st k := by
  unfold cacheDelete
  rw [List.filter_filter]
  simp

/-- String concatenation is left-cancellative. -/
theorem string_append_left_cancel (p x y : String) (h : p ++ x = p ++ y) : x = y := by
  apply String.ext
  have hd := congrArg String.data h
  rw [String.data_append, String.data_append] at hd
  exact List.append_cancel_left hd

/-- The session-listing scan collects exactly the sessions passing the
shared per-user filter. -/
theorem sessGetUserSessions_eq (st : Store) (now : Nat) (uid : String) :
    sessGetUserSessions st now uid = (keysMatching st "session:").filterMap (activeFor st now uid) := by
  unfold sessGetUserSessions
  suffices h : ∀ (l : List String) (acc : List Session),
      l.foldl (fun sessions key =>
        match activeFor st now uid key with
        | some s => sessions ++ [s]
        | none => sessions) acc = acc ++ l.filterMap (activeFor st now uid) by
    simpa using h (keysMatching st "session:") []
  intro l
  induction l with
  | nil => intro acc; simp
  | cons a t ih =>
    intro acc
    cases hfa : activeFor st now uid a <;>
      simp [List.foldl_cons, hfa, ih, List.filterMap_cons]

/-- The session-counting scan measures the same collection. -/
theorem getActiveSessionsCount_eq (st : Store) (now : Nat) (uid : String) :
    getActiveSessionsCount st now uid =
      ((keysMatching st "session:").filterMap (activeFor st now uid)).length := by
  unfold getActiveSessionsCount
  suffices h : ∀ (l : List String) (n : Nat),
      l.foldl (fun count key =>
        match activeFor st now uid key with
        | some _ => count + 1
        | none => count) n = n + (l.filterMap (activeFor st now uid)).length by
    simpa using h (keysMatching st "session:") 0
  intro l
  induction l with
  | nil => intro n; simp
  | cons a t ih =>
    intro n
    cases hfa : activeFor st now uid a with
    | none => simp [List.foldl_cons, hfa, ih n, List.filterMap_cons]
    | some b =>
      simp only [List.foldl_cons, hfa, List.filterMap_cons, List.length_cons]
      rw [ih (n + 1)]
      omega

/-- A session lookup that reports valid leaves the store untouched. -/
theorem isSessionValid_true_store_eq (st : Store) (now : Nat) (sid : String)
    (h : (isSessionValid st now sid).2 = true) : (isSessionValid st now sid).1 = st := by
  unfold isSessionValid getSession at h ⊢
  cases hd : decodeSession (cacheGet st ("session:" ++ sid)) with
  | none => simp [hd]
  | some s =>
    by_cases hexp : now > s.expiresAt
    · simp [hd, hexp] at h
    · simp [hd, hexp]

/-! ## C7 — lazy expiry on session read -/

/-- C7 (counterexample): the claim says a read at the exact boundary
instant `now = expires_at` already returns Expired and deletes the
record; `GetSession` uses the strict `time.Now().After(expires_at)`,
so at `now = expiresAt = 100` the session is returned unchanged. -/
theorem getSession_boundary_counterexample :
    boundarySession.expiresAt = 100 ∧
    getSession boundaryStore 100 "s1" = (boundaryStore, .ok boundarySession) := by
  exact ⟨rfl, rfl⟩

/-- C7 (amended): for every stored session, a read strictly after
`expires_at` deletes the record and returns Expired; a read at or before
`expires_at` (the boundary instant included) returns the session and
leaves the store unchanged. -/
theorem getSession_lazy_expiry (st : Store) (now : Nat) (sid : String) (s : Session)
    (hs : decodeSession (cacheGet st ("session:" ++ sid)) = some s) :
    (now > s.expiresAt →
      getSession st now sid = ((deleteSession st sid).1, .error .expired)) ∧
    (now ≤ s.expiresAt → getSession st now sid = (st, .ok s)) := by
  constructor
  · intro h
    simp only [getSession, hs]
    simp [h]
  · intro h
    simp only [getSession, hs]
    simp [Nat.not_lt.mpr h]

/-- C7 (witness): at tick 101 the boundary session is lazily expired and
deleted; at tick 100 it is still returned. -/
theorem getSession_lazy_expiry_witness :
    getSession boundaryStore 101 "s1" = ((deleteSession boundaryStore "s1").1, .error .expired) ∧
    getSession boundaryStore 100 "s1" = (boundaryStore, .ok boundarySession) :=
  ⟨(getSession_lazy_expiry boundaryStore 101 "s1" boundarySession rfl).1 (by decide),
   (getSession_lazy_expiry boundaryStore 100 "s1" boundarySession rfl).2 (by decide)⟩

/-! ## C8 — idempotent session deletion -/

/-- C8: deleting a session twice leaves the store exactly as deleting it
once, and both calls complete without error. -/
theorem deleteSession_idempotent (st : Store) (sid : String) :
    deleteSession (deleteSession st sid).1 sid = deleteSession st sid ∧
    (deleteSession st sid).2 = none ∧
    (deleteSession (deleteSession st sid).1 sid).2 = none := by
  refine ⟨?_, rfl, ?_⟩
  · unfold deleteSession
    simp [cacheGet_cacheDelete_self, decodeSession, cacheDelete_idem]
  · unfold deleteSession
    rfl

/-! ## C9 — the sessions endpoint returns no session details -/

/-- C9: `UserService.GetUserSessions` always returns an empty
`ActiveSessions` list — even when the user has active sessions (the
second conjunct: `TotalSessions` counts exactly the sessions the session
manager would list), so no session details ever leave this endpoint. -/
theorem getUserSessions_hides_details (st : Store) (now : Nat) (uid : String) :
    (userGetUserSessions st now uid).activeSessions = [] ∧
    (userGetUserSessions st now uid).totalSessions = (sessGetUserSessions st now uid).length := by
  refine ⟨rfl, ?_⟩
  show getActiveSessionsCount st now uid = _
  rw [getActiveSessionsCount_eq, sessGetUserSessions_eq]

/-! ## C2 — blacklist TTL versus token lifetimes -/

/-- C2 (code bug): the blacklist TTL (24h) is shorter than the refresh
token lifetime (7 days), so the claimed inequality
`TTL ≥ max(access, refresh lifetime)` fails; concretely, a refresh token
issued and blacklisted at tick 0 is still unexpired at tick 172800
(2 days) while its blacklist entry has been expired for a full day. -/
theorem blacklistTTL_below_refresh_lifetime :
    blacklistTokenTTL < refreshTokenLifetime ∧
    ¬ blacklistTokenTTL ≥ max accessTokenLifetime refreshTokenLifetime ∧
    0 + blacklistTokenTTL ≤ 172800 ∧ 172800 < 0 + refreshTokenLifetime := by
  decide

/-! ## C4 — blacklist round trip -/

/-- Distinct digests give distinct blacklist keys. -/
theorem blacklistKey_ne_of_hash_ne (t t2 : String) (h : hashToken t ≠ hashToken t2) :
    blacklistKey t ≠ blacklistKey t2 := by
  intro he
  exact h (string_append_left_cancel _ _ _ he)

/-- Blacklisting tokens whose digests all differ from `t2`'s digest never
makes `t2` look blacklisted. -/
theorem isTokenBlacklisted_foldl_false (t2 : String) (tokens : List String) (st : Store)
    (hst : isTokenBlacklisted st t2 = false)
    (hall : ∀ t ∈ tokens, hashToken t ≠ hashToken t2) :
    isTokenBlacklisted (tokens.foldl blacklistToken st) t2 = false := by
  induction tokens generalizing st with
  | nil => simpa using hst
  | cons a l ih =>
    simp only [List.foldl_cons]
    apply ih
    · have hne := blacklistKey_ne_of_hash_ne a t2 (hall a (List.mem_cons_self a l))
      unfold isTokenBlacklisted cacheExists at hst
      unfold isTokenBlacklisted blacklistToken cacheSet cacheExists
      simp only [List.any_eq_false] at hst ⊢
      intro e he
      rcases List.mem_cons.mp he with rfl | he2
      · simpa using hne
      · exact hst e (List.mem_filter.mp he2).1
    · intro t ht
      exact hall t (List.mem_cons_of_mem _ ht)

/-- Every entry of a store built by `blacklistToken` writes is a boolean
flag keyed by a token digest: the raw token string is never stored. -/
theorem blacklistStore_entries (tokens : List String) :
    ∀ e ∈ blacklistStore tokens,
      ∃ t ∈ tokens, e.key = blacklistKey t ∧ e.val = .flag true ∧ e.ttl = blacklistTokenTTL := by
  have h : ∀ (ts : List String) (st : Store), ∀ e ∈ ts.foldl blacklistToken st,
      (∃ t ∈ ts, e.key = blacklistKey t ∧ e.val = .flag true ∧ e.ttl = blacklistTokenTTL) ∨ e ∈ st := by
    intro ts
    induction ts with
    | nil => intro st e he; exact .inr he
    | cons a l ih =>
      intro st e he
      simp only [List.foldl_cons] at he
      rcases ih (blacklistToken st a) e he with h1 | h2
      · obtain ⟨t, ht, hp⟩ := h1
        exact .inl ⟨t, List.mem_cons_of_mem _ ht, hp⟩
      · unfold blacklistToken cacheSet at h2
        rcases List.mem_cons.mp h2 with rfl | h3
        · exact .inl ⟨a, List.mem_cons_self _ _, rfl, rfl, rfl⟩
        · exact .inr (List.mem_filter.mp h3).1
  intro e he
  rcases h tokens [] e he with h1 | h2
  · exact h1
  · simp at h2

/-- C4: blacklisting a token makes the recomputed-digest lookup report it
blacklisted; a token whose digest differs from every blacklisted token's
digest (in particular any never-blacklisted token, absent digest
collisions) is reported not blacklisted; and the blacklist stores only
digest-keyed boolean flags, never a raw token string. -/
theorem blacklist_roundTrip :
    (∀ (st : Store) (t : String), isTokenBlacklisted (blacklistToken st t) t = true) ∧
    (∀ (tokens : List String) (t2 : String),
        (∀ t ∈ tokens, hashToken t ≠ hashToken t2) →
        isTokenBlacklisted (blacklistStore tokens) t2 = false) ∧
    (∀ tokens : List String, ∀ e ∈ blacklistStore tokens,
        ∃ t ∈ tokens, e.key = blacklistKey t ∧ e.val = .flag true ∧ e.ttl = blacklistTokenTTL) := by
  refine ⟨?_, ?_, blacklistStore_entries⟩
  · intro st t
    unfold isTokenBlacklisted blacklistToken cacheSet cacheExists
    simp
  · intro tokens t2 hall
    exact isTokenBlacklisted_foldl_false t2 tokens [] rfl hall

set_option maxRecDepth 200000 in
/-- C4 (witness): a concrete round trip — "token-a" is blacklisted and
found; "token-b", never blacklisted (and with a different SHA-256
digest), is not. -/
theorem blacklist_roundTrip_witness :
    isTokenBlacklisted (blacklistToken [] "token-a") "token-a" = true ∧
    isTokenBlacklisted (blacklistStore ["token-a"]) "token-b" = false :=
  ⟨blacklist_roundTrip.1 [] "token-a",
   blacklist_roundTrip.2.1 ["token-a"] "token-b" (by decide)⟩

/-! ## C6 — cache key determinism -/

/-- C6: semantically identical queries (equal filter values, equal sort
lists, equal pagination values) produce identical cache keys, for the
offset-pagination and the cursor-pagination key builders alike —
`json.Marshal` serializes struct fields in declaration order, so no
incidental ordering of the calling layer can reach the key. -/
theorem generateQueryCacheKey_deterministic :
    (∀ (u : String) (q1 q2 : ProductQuery), q1.semanticallyEqual q2 →
        generateQueryCacheKey u q1 = generateQueryCacheKey u q2) ∧
    (∀ (u : String) (q1 q2 : ProductQueryCursor), q1.semanticallyEqual q2 →
        generateCursorQueryCacheKey u q1 = generateCursorQueryCacheKey u q2) := by
  constructor
  · intro u q1 q2 h
    obtain ⟨h1, h2, h3⟩ :=
      (h : q1.filter = q2.filter ∧ q1.sort = q2.sort ∧ q1.pagination = q2.pagination)
    cases q1
    cases q2
    dsimp only at h1 h2 h3
    subst h1
    subst h2
    subst h3
    rfl
  · intro u q1 q2 h
    obtain ⟨h1, h2, h3⟩ :=
      (h : q1.filter = q2.filter ∧ q1.sort = q2.sort ∧ q1.pagination = q2.pagination)
    cases q1
    cases q2
    dsimp only at h1 h2 h3
    subst h1
    subst h2
    subst h3
    rfl

/-- C6 (witness): the fixture queries written with fields in different
incidental orders have equal keys. -/
theorem generateQueryCacheKey_deterministic_witness :
    generateQueryCacheKey "u1" queryA = generateQueryCacheKey "u1" queryB ∧
    generateCursorQueryCacheKey "u1" cursorQueryA = generateCursorQueryCacheKey "u1" cursorQueryB :=
  ⟨generateQueryCacheKey_deterministic.1 "u1" queryA queryB
      (by unfold ProductQuery.semanticallyEqual; exact ⟨rfl, rfl, rfl⟩),
   generateQueryCacheKey_deterministic.2 "u1" cursorQueryA cursorQueryB
      (by unfold ProductQueryCursor.semanticallyEqual; exact ⟨rfl, rfl, rfl⟩)⟩

/-! ## C10 — update frame conditions -/

/-- C10: on a successful update, name/description/price keep the stored
value exactly when the incoming field carries its zero value and take the
incoming value otherwise; stock is overwritten whenever the incoming
stock is non-negative (so the zero value 0 overwrites) and kept only for
negative incoming stock; `UpdatedAt` is always refreshed; id, owner and
`CreatedAt` are untouched; and a request omitting the stock field makes
the handler pass stock 0, so the stored stock becomes 0. -/
theorem productUpdate_frame (st : Store) (table : ProductTable) (incoming : Product)
    (uid : String) (now : Nat) (existing : Product)
    (hfind : repoGetByID table incoming.id = some existing)
    (hown : existing.userID = uid) :
    ∃ updated : Product,
      svcProductUpdate st table incoming uid now =
        (invalidateUserCache st uid,
         table.map (fun p => if p.id == incoming.id then updated else p),
         .ok updated) ∧
      (incoming.name = "" → updated.name = existing.name) ∧
      (incoming.name ≠ "" → updated.name = incoming.name) ∧
      (incoming.description = "" → updated.description = existing.description) ∧
      (incoming.description ≠ "" → updated.description = incoming.description) ∧
      (incoming.price ≤ 0 → updated.price = existing.price) ∧
      (0 < incoming.price → updated.price = incoming.price) ∧
      (0 ≤ incoming.stock → updated.stock = incoming.stock) ∧
      (incoming.stock < 0 → updated.stock = existing.stock) ∧
      updated.updatedAt = now ∧
      updated.id = existing.id ∧ updated.userID = existing.userID ∧
      updated.createdAt = existing.createdAt ∧
      (∀ req : UpdateProductRequest, req.stock = none →
        ∃ u2 : Product,
          (svcProductUpdate st table (buildUpdateProduct incoming.id req) uid now).2.2 = .ok u2 ∧
          u2.stock = 0) := by
  simp only [svcProductUpdate, hfind]
  rw [if_neg (by simp [hown])]
  refine ⟨_, rfl, ?_, ?_, ?_, ?_, ?_, ?_, ?_, ?_, rfl, rfl, rfl, rfl, ?_⟩
  · intro h
    simp [h]
  · intro h
    simp [h]
  · intro h
    simp [h]
  · intro h
    simp [h]
  · intro h
    have hp : ¬ incoming.price > 0 := not_lt.mpr h
    simp [hp]
  · intro h
    simp [h]
  · intro h
    simp [h]
  · intro h
    have hs : ¬ incoming.stock ≥ 0 := not_le.mpr h
    simp [hs]
  · intro req hsnone
    simp only [buildUpdateProduct, hsnone, Option.getD_none]
    simp only [hfind]
    rw [if_neg (by simp [hown])]
    exact ⟨_, rfl, rfl⟩

/-- C10 (witness): updating user A's product with a new name, zero price,
zero description, and stock 0 (the handler's value for an omitted stock
field) keeps description and price, renames, zeroes the stock, and
refreshes `UpdatedAt`. -/
theorem productUpdate_frame_witness :
    ∃ updated : Product,
      svcProductUpdate [] tableOne incomingUpdate userA 99 =
        (invalidateUserCache [] userA,
         tableOne.map (fun p => if p.id == incomingUpdate.id then updated else p),
         .ok updated) ∧
      updated.name = "New Name" ∧ updated.description = productOwnedByA.description ∧
      updated.price = productOwnedByA.price ∧ updated.stock = 0 ∧ updated.updatedAt = 99 := by
  obtain ⟨u, heq, h1, h2, h3, h4, h5, h6, h7, h8, h9, hrest⟩ :=
    productUpdate_frame [] tableOne incomingUpdate userA 99 productOwnedByA rfl rfl
  refine ⟨u, heq, h2 (by decide), h3 rfl, h5 (by decide), ?_, h9⟩
  rw [h7 (by decide)]
  rfl

/-! ## C5 — non-owner access status codes -/

/-- C5 (counterexample): the claim says get-one, update and delete all
answer 404 when the product exists but belongs to another user; for user
B touching user A's product, update and delete answer 400 ("Update
Failed"/"Deletion Failed" with the service's unauthorized message), not
404. -/
theorem ownership_status_counterexample :
    productOwnedByA.userID = userA ∧ userB ≠ userA ∧
    (productHandlerUpdate [] tableOne productOwnedByA.id emptyUpdateRequest userB 0).2.2 =
      .failure 400 "Update Failed" "unauthorized access to product" ∧
    statusOf (productHandlerUpdate [] tableOne productOwnedByA.id emptyUpdateRequest userB 0).2.2 ≠ 404 ∧
    (productHandlerDelete [] tableOne productOwnedByA.id userB).2.2 =
      .failure 400 "Deletion Failed" "unauthorized access to product" ∧
    statusOf (productHandlerDelete [] tableOne productOwnedByA.id userB).2.2 ≠ 404 := by
  decide

/-- C5 (amended): when the referenced product exists but is owned by a
different user, get-one answers 404 (hiding existence), while update and
delete answer 400 with the unauthorized message. -/
theorem nonOwner_status_codes (st : Store) (table : ProductTable) (idStr uid id : String)
    (p : Product) (req : UpdateProductRequest) (req1 : UpdateProductRequest) (now : Nat)
    (hid : validateUUID idStr = .ok id)
    (hfind : repoGetByID table id = some p)
    (hown : p.userID ≠ uid)
    (hmiss : decodeProduct (cacheGet st ("product:" ++ uid ++ ":" ++ id)) = none)
    (hreq : validateUpdateRequest req = .ok req1) :
    (productHandlerGetByID st table idStr uid).2 =
      .failure 404 "Not Found" "unauthorized access to product" ∧
    (productHandlerUpdate st table idStr req uid now).2.2 =
      .failure 400 "Update Failed" "unauthorized access to product" ∧
    (productHandlerDelete st table idStr uid).2.2 =
      .failure 400 "Deletion Failed" "unauthorized access to product" := by
  refine ⟨?_, ?_, ?_⟩
  · simp [productHandlerGetByID, hid, svcProductGetByID, hmiss, hfind, hown]
  · simp [productHandlerUpdate, hid, hreq, svcProductUpdate, buildUpdateProduct, hfind, hown]
  · simp [productHandlerDelete, hid, svcProductDelete, hfind, hown]

/-- C5 (witness): the amended statuses at the concrete fixture (user B
touching user A's product). -/
theorem nonOwner_status_codes_witness :
    (productHandlerGetByID [] tableOne productOwnedByA.id userB).2 =
      .failure 404 "Not Found" "unauthorized access to product" ∧
    (productHandlerUpdate [] tableOne productOwnedByA.id emptyUpdateRequest userB 0).2.2 =
      .failure 400 "Update Failed" "unauthorized access to product" ∧
    (productHandlerDelete [] tableOne productOwnedByA.id userB).2.2 =
      .failure 400 "Deletion Failed" "unauthorized access to product" :=
  nonOwner_status_codes [] tableOne productOwnedByA.id userB productOwnedByA.id
    productOwnedByA emptyUpdateRequest emptyUpdateRequest 0
    rfl rfl (by decide) rfl rfl

/-! ## C1 — the Auth Gatekeeper check order -/

/-- C1: on every request, the middleware realizes exactly the five-check
state machine of spec §4.5 — grouping its distinct 401 messages by
failing check maps its outcome onto the spec outcome, so the checks run
in the spec's strict order, short-circuit at the first failure, and on
full success the parsed user id, session id and raw token are attached;
the middleware's failure messages are pairwise distinct, and every 401 it
can emit carries one of them. -/
theorem authMiddleware_matches_gatekeeper_spec (decode : String → Option Jwt) (st : Store)
    (now : Nat) (hdr : String) :
    classifyAuthResult (authMiddleware decode st now hdr).2 = authGatekeeperSpec decode st now hdr ∧
    authFailureMessages.Nodup ∧
    (∀ m, (authMiddleware decode st now hdr).2 = .unauthorized m → m ∈ authFailureMessages) := by
  refine ⟨?_, by decide, ?_⟩
  · by_cases h0 : hdr = ""
    · simp [authMiddleware, authGatekeeperSpec, classifyAuthResult, h0]
    · by_cases h1 : hasPrefixStr hdr "Bearer " = true
      · cases hd : decode (dropChars hdr 7) with
        | none => simp [authMiddleware, authGatekeeperSpec, classifyAuthResult, h0, h1, hd]
        | some j =>
          by_cases hv : jwtParseOK j now = true
          · cases hu : claimLookup j "user_id" with
            | none => simp [authMiddleware, authGatekeeperSpec, classifyAuthResult, h0, h1, hd, hv, hu]
            | some v =>
              cases v with
              | num n => simp [authMiddleware, authGatekeeperSpec, classifyAuthResult, h0, h1, hd, hv, hu]
              | boolean b => simp [authMiddleware, authGatekeeperSpec, classifyAuthResult, h0, h1, hd, hv, hu]
              | null => simp [authMiddleware, authGatekeeperSpec, classifyAuthResult, h0, h1, hd, hv, hu]
              | str u =>
                cases hsid : claimLookup j "session_id" with
                | none => simp [authMiddleware, authGatekeeperSpec, classifyAuthResult, h0, h1, hd, hv, hu, hsid]
                | some w =>
                  cases w with
                  | num n => simp [authMiddleware, authGatekeeperSpec, classifyAuthResult, h0, h1, hd, hv, hu, hsid]
                  | boolean b => simp [authMiddleware, authGatekeeperSpec, classifyAuthResult, h0, h1, hd, hv, hu, hsid]
                  | null => simp [authMiddleware, authGatekeeperSpec, classifyAuthResult, h0, h1, hd, hv, hu, hsid]
                  | str sid =>
                    cases hup : uuidParse u with
                    | none =>
                      simp [authMiddleware, authGatekeeperSpec, classifyAuthResult, h0, h1, hd, hv, hu, hsid, hup]
                    | some uid =>
                      cases hsv : (isSessionValid st now sid).2 with
                      | false =>
                        simp [authMiddleware, authGatekeeperSpec, classifyAuthResult, h0, h1, hd, hv,
                              hu, hsid, hup, hsv]
                      | true =>
                        have hst1 := isSessionValid_true_store_eq st now sid hsv
                        cases hbl : isTokenBlacklisted st (dropChars hdr 7) with
                        | true =>
                          simp [authMiddleware, authGatekeeperSpec, classifyAuthResult, h0, h1, hd, hv,
                                hu, hsid, hup, hsv, hst1, hbl]
                        | false =>
                          cases hub : isUserSessionBlacklisted st uid sid with
                          | true =>
                            simp [authMiddleware, authGatekeeperSpec, classifyAuthResult, h0, h1, hd, hv,
                                  hu, hsid, hup, hsv, hst1, hbl, hub]
                          | false =>
                            simp [authMiddleware, authGatekeeperSpec, classifyAuthResult, h0, h1, hd, hv,
                                  hu, hsid, hup, hsv, hst1, hbl, hub]
          · simp [authMiddleware, authGatekeeperSpec, classifyAuthResult, h0, h1, hd, hv]
      · simp [authMiddleware, authGatekeeperSpec, classifyAuthResult, h0, h1]
  · intro m hm
    by_cases h0 : hdr = ""
    · simp [authMiddleware, h0] at hm
      subst hm
      decide
    · by_cases h1 : hasPrefixStr hdr "Bearer " = true
      · cases hd : decode (dropChars hdr 7) with
        | none =>
          simp [authMiddleware, h0, h1, hd] at hm
          subst hm
          decide
        | some j =>
          by_cases hv : jwtParseOK j now = true
          · cases hu : claimLookup j "user_id" with
            | none =>
              simp [authMiddleware, h0, h1, hd, hv, hu] at hm
              subst hm
              decide
            | some v =>
              cases v with
              | num n =>
                simp [authMiddleware, h0, h1, hd, hv, hu] at hm
                subst hm
                decide
              | boolean b =>
                simp [authMiddleware, h0, h1, hd, hv, hu] at hm
                subst hm
                decide
              | null =>
                simp [authMiddleware, h0, h1, hd, hv, hu] at hm
                subst hm
                decide
              | str u =>
                cases hsid : claimLookup j "session_id" with
                | none =>
                  simp [authMiddleware, h0, h1, hd, hv, hu, hsid] at hm
                  subst hm
                  decide
                | some w =>
                  cases w with
                  | num n =>
                    simp [authMiddleware, h0, h1, hd, hv, hu, hsid] at hm
                    subst hm
                    decide
                  | boolean b =>
                    simp [authMiddleware, h0, h1, hd, hv, hu, hsid] at hm
                    subst hm
                    decide
                  | null =>
                    simp [authMiddleware, h0, h1, hd, hv, hu, hsid] at hm
                    subst hm
                    decide
                  | str sid =>
                    cases hup : uuidParse u with
                    | none =>
                      simp [authMiddleware, h0, h1, hd, hv, hu, hsid, hup] at hm
                      subst hm
                      decide
                    | some uid =>
                      cases hsv : (isSessionValid st now sid).2 with
                      | false =>
                        simp [authMiddleware, h0, h1, hd, hv, hu, hsid, hup, hsv] at hm
                        subst hm
                        decide
                      | true =>
                        have hst1 := isSessionValid_true_store_eq st now sid hsv
                        cases hbl : isTokenBlacklisted st (dropChars hdr 7) with
                        | true =>
                          simp [authMiddleware, h0, h1, hd, hv, hu, hsid, hup, hsv, hst1, hbl] at hm
                          subst hm
                          decide
                        | false =>
                          cases hub : isUserSessionBlacklisted st uid sid with
                          | true =>
                            simp [authMiddleware, h0, h1, hd, hv, hu, hsid, hup, hsv, hst1, hbl, hub] at hm
                            subst hm
                            decide
                          | false =>
                            simp [authMiddleware, h0, h1, hd, hv, hu, hsid, hup, hsv, hst1, hbl, hub] at hm
          · simp [authMiddleware, h0, h1, hd, hv] at hm
            subst hm
            decide
      · simp [authMiddleware, h0, h1] at hm
        subst hm
        decide

set_option maxRecDepth 1000000 in
/-- C1 (witness): the concrete fixture request passes all five checks and
the middleware's outcome classifies to the spec outcome; a concrete 401
message is among the middleware's message list. -/
theorem authMiddleware_matches_gatekeeper_spec_witness :
    classifyAuthResult (authMiddleware decodeTable storeWithSessionOne 100 "Bearer tok.notype").2 =
      authGatekeeperSpec decodeTable storeWithSessionOne 100 "Bearer tok.notype" ∧
    "Invalid or expired token" ∈ authFailureMessages :=
  ⟨(authMiddleware_matches_gatekeeper_spec decodeTable storeWithSessionOne 100 "Bearer tok.notype").1,
   (authMiddleware_matches_gatekeeper_spec (fun _ => none) [] 0 "Bearer x").2.2
     "Invalid or expired token" (by decide)⟩

/-! ## C3 — which token checks verification performs -/

set_option maxRecDepth 1000000 in
/-- C3 (counterexample): a well-signed, unexpired HMAC token whose claim
map carries neither a `type` (token_type) claim nor an `email` claim is
accepted end to end by the middleware's verification — the claim's
required rejection of a missing/wrong-typed token_type does not happen. -/
theorem authMiddleware_accepts_token_without_type :
    claimLookup tokenWithoutType "type" = none ∧
    claimLookup tokenWithoutType "email" = none ∧
    (authMiddleware decodeTable storeWithSessionOne 100 "Bearer tok.notype").2 =
      .success sampleUserID "sess-1" "tok.notype" := by
  decide

/-- C3 (amended): verification rejects tokens signed outside the HMAC
family or with a bad signature, rejects expired tokens, and type-checks
the claims the code actually extracts — `user_id` (a string parsing as a
UUID) and `session_id` (a string) — but it never extracts or checks the
`email` or `token_type` claims: a token missing both is accepted whenever
every performed check passes. -/
theorem jwtVerification_checks_amended (decode : String → Option Jwt) (st : Store) (now : Nat)
    (hdr : String) (j : Jwt)
    (hb : hasPrefixStr hdr "Bearer " = true)
    (hj : decode (dropChars hdr 7) = some j) :
    ((isHMAC j.alg && j.sigValid) = false →
      (authMiddleware decode st now hdr).2 = .unauthorized "Invalid or expired token") ∧
    (∀ e : Int, claimLookup j "exp" = some (.num e) → 0 < e → e ≤ now →
      (authMiddleware decode st now hdr).2 = .unauthorized "Invalid or expired token") ∧
    ((∀ s, claimLookup j "user_id" ≠ some (.str s)) → jwtParseOK j now = true →
      (authMiddleware decode st now hdr).2 = .unauthorized "Invalid user ID in token") ∧
    (∀ u, claimLookup j "user_id" = some (.str u) →
      (∀ s, claimLookup j "session_id" ≠ some (.str s)) → jwtParseOK j now = true →
      (authMiddleware decode st now hdr).2 = .unauthorized "Invalid session ID in token") ∧
    (∀ u sid uid, claimLookup j "user_id" = some (.str u) →
      claimLookup j "session_id" = some (.str sid) →
      uuidParse u = some uid →
      jwtParseOK j now = true →
      (isSessionValid st now sid).2 = true →
      isTokenBlacklisted st (dropChars hdr 7) = false →
      isUserSessionBlacklisted st uid sid = false →
      (authMiddleware decode st now hdr).2 = .success uid sid (dropChars hdr 7)) := by
  have h0 : ¬ hdr = "" := by
    rintro rfl
    exact absurd hb (by decide)
  refine ⟨?_, ?_, ?_, ?_, ?_⟩
  · intro h
    have hv : jwtParseOK j now = false := by
      unfold jwtParseOK
      rw [h, Bool.false_and]
    simp [authMiddleware, h0, hb, hj, hv]
  · intro e he hpos hle
    have hexp : numericDate j "exp" = .ok (some e) := by
      unfold numericDate
      rw [he]
      simp [Int.ne_of_gt hpos]
    have hcv : jwtClaimsValid j now = false := by
      unfold jwtClaimsValid
      rw [hexp]
      simp [Int.not_lt.mpr hle]
    have hv : jwtParseOK j now = false := by
      unfold jwtParseOK
      rw [hcv, Bool.and_false]
    simp [authMiddleware, h0, hb, hj, hv]
  · intro hnu hv
    cases hu : claimLookup j "user_id" with
    | none => simp [authMiddleware, h0, hb, hj, hv, hu]
    | some v =>
      cases v with
      | str s => exact absurd hu (hnu s)
      | num n => simp [authMiddleware, h0, hb, hj, hv, hu]
      | boolean b => simp [authMiddleware, h0, hb, hj, hv, hu]
      | null => simp [authMiddleware, h0, hb, hj, hv, hu]
  · intro u hu hns hv
    cases hsid : claimLookup j "session_id" with
    | none => simp [authMiddleware, h0, hb, hj, hv, hu, hsid]
    | some w =>
      cases w with
      | str s => exact absurd hsid (hns s)
      | num n => simp [authMiddleware, h0, hb, hj, hv, hu, hsid]
      | boolean b => simp [authMiddleware, h0, hb, hj, hv, hu, hsid]
      | null => simp [authMiddleware, h0, hb, hj, hv, hu, hsid]
  · intro u sid uid hu hsid hup hv hsess hbl hub
    have hst1 := isSessionValid_true_store_eq st now sid hsess
    simp [authMiddleware, h0, hb, hj, hv, hu, hsid, hup, hsess, hst1, hbl, hub]

set_option maxRecDepth 1000000 in
/-- C3 (witness): the acceptance conjunct applied at the fixture token
that carries no token_type and no email claim. -/
theorem jwtVerification_checks_amended_witness :
    (authMiddleware decodeTable storeWithSessionOne 100 "Bearer tok.notype").2 =
      .success sampleUserID "sess-1" "tok.notype" :=
  (jwtVerification_checks_amended decodeTable storeWithSessionOne 100 "Bearer tok.notype"
      tokenWithoutType (by decide) (by decide)).2.2.2.2 sampleUserID "sess-1" sampleUserID
    (by decide) (by decide) (by decide) (by decide) (by decide) (by decide) (by decide)

end Products
